import Mathlib

/-!
Verification of the mirroring decision-and-delivery subsystem of
`src/addons/simple_mirror.py` (a mitmproxy addon).

The Python source is shallowly embedded below.  External collaborators —
the regex library (`re.compile` / compiled-pattern `search`), the URL join
function (`urllib.parse.urljoin`), the UUID generator (`uuid.uuid4`) and
the network (`urllib.request.urlopen`) — are modelled as parameters, since
they live outside the repository.  Every function of the addon itself
(`configure`, `request`, `_should_mirror`, `_post_copy`) is translated
from the source line by line.
-/

namespace SimpleMirror

/-! ## Python string primitives -/

/-- The whitespace characters removed by Python's `str.strip()`. -/
def pyWS (c : Char) : Bool :=
  c == ' ' || c == '\t' || c == '\n' || c == '\r' || c == '\x0b' || c == '\x0c'

/-- Python `s.strip()`: remove whitespace from both ends. -/
def pyStrip (s : String) : String :=
  ⟨((s.data.dropWhile pyWS).reverse.dropWhile pyWS).reverse⟩

/-- Python `s.lstrip("/")`. -/
def pyLstripSlashes (s : String) : String :=
  ⟨s.data.dropWhile (· == '/')⟩

/-- Python `s.rstrip("/")`. -/
def pyRstripSlashes (s : String) : String :=
  ⟨(s.data.reverse.dropWhile (· == '/')).reverse⟩

/-- Python `s.lower()` (ASCII case mapping, as used on header values). -/
def pyLower (s : String) : String := ⟨s.data.map Char.toLower⟩

/-- Python `s.upper()` (ASCII case mapping, as used on method tokens). -/
def pyUpper (s : String) : String := ⟨s.data.map Char.toUpper⟩

/-- Python falsiness of a string: `not s` iff `s` is empty. -/
def pyIsEmpty (s : String) : Bool := s.data.isEmpty

/-- Python `s.startswith(pre)`. -/
def pyStartsWith (s pre : String) : Bool := pre.data.isPrefixOf s.data

/-- Python slicing `s[n:]` (by code point). -/
def pyDropChars (s : String) (n : Nat) : String := ⟨s.data.drop n⟩

/-- Helper for `pySplitComma`: accumulate the current field (reversed). -/
def splitCommaAux : List Char → List Char → List String
  | [], acc => [⟨acc.reverse⟩]
  | c :: t, acc =>
    if c == ',' then ⟨acc.reverse⟩ :: splitCommaAux t [] else splitCommaAux t (c :: acc)

/-- Python `s.split(",")`. -/
def pySplitComma (s : String) : List String := splitCommaAux s.data []

/-- Does `needle` occur as a contiguous run inside `hay`? -/
def charsContain (hay needle : List Char) : Bool :=
  needle.isPrefixOf hay ||
    match hay with
    | [] => false
    | _ :: t => charsContain t needle

/-- Python `needle in hay` on strings: substring containment. -/
def pyContains (hay needle : String) : Bool :=
  charsContain hay.data needle.data

/-! ## Data model -/

/-- The mitmproxy options registered by `MirrorAddon.load`. -/
structure Options where
  mirror_base : String
  mirror_path : String
  mirror_match : String
  mirror_methods : String
  mirror_json_only : Bool
  mirror_add_header : Bool
  mirror_header_name : String
  mirror_timeout_secs : Int
  mirror_async : Bool
  deriving DecidableEq

/-- The option defaults declared in `MirrorAddon.load`. -/
def defaultOptions : Options :=
  { mirror_base := ""
    mirror_path := "/"
    mirror_match := ""
    mirror_methods := "POST,PUT,PATCH"
    mirror_json_only := true
    mirror_add_header := true
    mirror_header_name := "X-Mirror-Correlation-Id"
    mirror_timeout_secs := 5
    mirror_async := true }

/-- The read-only view of `flow.request` used by the addon: method,
`pretty_url`, the header multimap, and the raw body bytes
(`raw_content` is `None` or a byte string in Python). -/
structure Request where
  method : String
  pretty_url : String
  headers : List (String × String)
  raw_content : Option (List Nat)
  deriving DecidableEq

/-- mitmproxy `Headers.get`: case-insensitive lookup of a header value. -/
def headersGet (hs : List (String × String)) (key : String) : Option String :=
  (hs.find? (fun kv => pyLower kv.1 == pyLower key)).map (·.2)

/-- Python `dict` assignment `d[k] = v`: overwrite the (case-sensitive)
key if present, else append the new binding. -/
def dictSet (d : List (String × String)) (k v : String) : List (String × String) :=
  if d.any (·.1 == k) then d.map (fun kv => if kv.1 == k then (k, v) else kv)
  else d ++ [(k, v)]

/-! ## Configuration (`MirrorAddon.configure`)

A compiled regex object is abstracted as its `search` method: a function
from the URL to a match result, which (as the source's `try`/`except`
anticipates) may also raise.  `re.compile` is abstracted as a function
that either yields such a matcher or raises `re.error`. -/

/-- Model of a compiled pattern's `search`, guarded by the source's
`try`/`except`: `.ok b` is `bool(regex.search(url)) = b`, `.error ()` a
runtime matching exception. -/
def Matcher : Type := String → Except Unit Bool

/-- The addon's per-configuration state: `self._regex`. -/
structure MirrorState where
  regex : Option Matcher

/-- `MirrorAddon.configure`: if `mirror_match` starts with `"regex:"`,
compile the remainder; a compile failure is caught (`except re.error`),
logged, and leaves `self._regex = None`.  Otherwise `self._regex = None`.
`compile` models `re.compile`. -/
def configure (compile : String → Except Unit Matcher) (opts : Options) : MirrorState :=
  let mm := opts.mirror_match
  if pyStartsWith mm "regex:" then
    match compile (pyDropChars mm 6) with
    | .ok rgx => { regex := some rgx }
    | .error _ => { regex := none }
  else
    { regex := none }

/-! ## Eligibility (`MirrorAddon._should_mirror`) -/

/-- The method allow-list:
`{m.strip().upper() for m in (ctx.options.mirror_methods or "").split(",") if m.strip()}`. -/
def parseMethods (s : String) : List String :=
  (pySplitComma s).filterMap (fun m =>
    let t := pyStrip m
    if pyIsEmpty t then none else some (pyUpper t))

/-- First check of `_should_mirror`:
`if allowed and flow.request.method.upper() not in allowed: return False`. -/
def methodFilterOk (opts : Options) (r : Request) : Bool :=
  let allowed := parseMethods opts.mirror_methods
  allowed.isEmpty || allowed.contains (pyUpper r.method)

/-- Second check of `_should_mirror`: when `mirror_json_only`,
`ctype = (flow.request.headers.get("content-type") or "").lower()` must
contain `"json"`. -/
def ctypeFilterOk (opts : Options) (r : Request) : Bool :=
  !opts.mirror_json_only ||
    pyContains (pyLower ((headersGet r.headers "content-type").getD "")) "json"

/-- Third check of `_should_mirror` (the URL-match step): empty
`mirror_match` accepts; with a compiled regex, `bool(regex.search(url))`
with runtime errors mapped to `False`; otherwise literal substring
`match in url`. -/
def urlMatchOk (st : MirrorState) (opts : Options) (r : Request) : Bool :=
  let url := r.pretty_url
  let m := opts.mirror_match
  if pyIsEmpty m then true
  else
    match st.regex with
    | some rgx =>
      match rgx url with
      | .ok b => b
      | .error _ => false
    | none => pyContains url m

/-- `MirrorAddon._should_mirror`, as the source's early-return chain. -/
def should_mirror (st : MirrorState) (opts : Options) (r : Request) : Bool :=
  if !methodFilterOk opts r then false
  else if !ctypeFilterOk opts r then false
  else urlMatchOk st opts r

/-! ## Capture (first half of `MirrorAddon.request`) -/

/-- The argument tuple handed to `_post_copy` (directly, or through
`threading.Thread(target=self._post_copy, args=...)`). -/
structure DispatchCall where
  target : String
  body : List Nat
  headers : List (String × String)
  timeout : Int
  deriving DecidableEq

/-- Lines 79–99 of `MirrorAddon.request`: eligibility, the blank-base and
empty-body skips, the target join, the forwarded headers and the timeout
clamp.  `ujoin` models `urllib.parse.urljoin`; `uuid` is the fresh
`str(uuid.uuid4())` for this request. -/
def capture (ujoin : String → String → String) (uuid : String)
    (st : MirrorState) (opts : Options) (flow : Request) : Option DispatchCall :=
  if !should_mirror st opts flow then none
  else
    let base := pyStrip opts.mirror_base
    if pyIsEmpty base then none
    else
      let body := flow.raw_content.getD []
      if body.isEmpty then none
      else
        let target := ujoin (pyRstripSlashes base ++ "/")
          (pyLstripSlashes (if pyIsEmpty opts.mirror_path then "/" else opts.mirror_path))
        let ctype := (headersGet flow.headers "content-type").getD ""
        let hs1 : List (String × String) :=
          if pyIsEmpty ctype then [] else dictSet [] "Content-Type" ctype
        let hs2 :=
          if opts.mirror_add_header then dictSet hs1 opts.mirror_header_name uuid else hs1
        let timeout : Int := max 1 opts.mirror_timeout_secs
        some ⟨target, body, hs2, timeout⟩

/-! ## Dispatch (`MirrorAddon._post_copy`) -/

/-- A Python exception escaping a modelled addon function. -/
inductive PyErr
  | valueError
  deriving DecidableEq

/-- The `urllib.request.Request` object built by `_post_copy`. -/
structure ReqObj where
  url : String
  data : List Nat
  headers : List (String × String)
  method : String
  deriving DecidableEq

/-- `urllib.parse` scheme detection (`^([^/:]+):` in `_splittype`): the
URL has a type iff a nonempty run of characters other than `/` and `:`
is followed by `:`. -/
def hasUrlType (s : String) : Bool :=
  let pre := s.data.takeWhile (fun c => !(c == '/' || c == ':'))
  !pre.isEmpty && ((s.data.drop pre.length).head? == some ':')

/-- `urllib.request.Request(target, data=body, headers=headers,
method="POST")`: the URL is unwrapped (whitespace-stripped) and must have
a recognisable type, else `ValueError("unknown url type")` is raised.
This construction sits OUTSIDE the `try` block of `_post_copy`. -/
def requestConstruct (target : String) (body : List Nat)
    (hs : List (String × String)) : Except PyErr ReqObj :=
  let u := pyStrip target
  if hasUrlType u then .ok ⟨u, body, hs, "POST"⟩ else .error .valueError

/-- A failure raised by `urllib.request.urlopen` (all are caught by
`_post_copy`'s `except` clauses and only logged). -/
inductive NetErr
  | connRefused
  | dnsFailure
  | timedOut
  | tlsError
  | httpStatus (code : Nat)
  | otherFailure
  deriving DecidableEq

/-- `MirrorAddon._post_copy`: build the `Request` object (outside the
`try`), then perform exactly one `urlopen` whose outcome — any status, or
any of the `NetErr` failures — is logged and absorbed.  The returned list
records the delivery attempts actually made, each with its logged
outcome; `net` models the network. -/
def post_copy (net : ReqObj → Int → Except NetErr Nat) (target : String)
    (body : List Nat) (hs : List (String × String)) (timeoutSecs : Int) :
    Except PyErr (List (ReqObj × Except NetErr Nat)) :=
  match requestConstruct target body hs with
  | .error e => .error e
  | .ok req => .ok [(req, net req timeoutSecs)]

/-! ## The hook (`MirrorAddon.request`) -/

/-- What the hook did: the request descriptor as the host sees it
afterwards, the `_post_copy` thread spawns (async mode), and the inline
delivery attempts with their logged outcomes (sync mode). -/
structure HookResult where
  flow : Request
  spawned : List DispatchCall
  attempts : List (ReqObj × Except NetErr Nat)

/-- The body of the hook's `try` block: capture, then thread spawn or
inline `_post_copy`.  An exception escaping `_post_copy` (sync mode)
propagates to the hook boundary. -/
def request_inner (ujoin : String → String → String) (uuid : String)
    (net : ReqObj → Int → Except NetErr Nat)
    (st : MirrorState) (opts : Options) (flow : Request) : Except PyErr HookResult :=
  match capture ujoin uuid st opts flow with
  | none => .ok ⟨flow, [], []⟩
  | some c =>
    if opts.mirror_async then .ok ⟨flow, [c], []⟩
    else
      match post_copy net c.target c.body c.headers c.timeout with
      | .ok l => .ok ⟨flow, [], l⟩
      | .error e => .error e

/-- `MirrorAddon.request`: the `try`/`except Exception` boundary — any
exception from the body is caught and logged, and the hook returns to the
host with the flow untouched. -/
def request (ujoin : String → String → String) (uuid : String)
    (net : ReqObj → Int → Except NetErr Nat)
    (st : MirrorState) (opts : Options) (flow : Request) : Except PyErr HookResult :=
  match request_inner ujoin uuid net st opts flow with
  | .ok r => .ok r
  | .error _ => .ok ⟨flow, [], []⟩

end SimpleMirror

-- Decidable equality for `Except`, for evaluating modelled results on
-- concrete inputs.
deriving instance DecidableEq for Except

namespace SimpleMirror

/-! ## Concrete fixtures used by the per-claim witnesses and counterexamples -/

/-- A model of `re.compile` on which every pattern — in particular the
unbalanced `"("` — raises `re.error`.  Only its value at the configured
pattern matters to the theorems that use it. -/
def c1compileFail : String → Except Unit Matcher := fun _ => .error ()

/-- Options with the corrupt pattern `regex:(` (Python:
`re.error: missing ), unterminated subpattern`). -/
def c1opts : Options := { defaultOptions with mirror_match := "regex:(" }

/-- A JSON POST request that passes the method and content-type filters. -/
def c1flow : Request :=
  { method := "POST", pretty_url := "http://api.example.com/v1/x",
    headers := [("Content-Type", "application/json")], raw_content := some [123] }

/-- A concrete stand-in for `urllib.parse.urljoin` for the witnesses;
none of the claims depends on its behaviour. -/
def ujoinConcat : String → String → String := fun a b => a ++ b

/-- A network on which every delivery raises (connection refused). -/
def c3net : ReqObj → Int → Except NetErr Nat := fun _ _ => .error .connRefused

/-- A network on which every delivery times out. -/
def c3wnet : ReqObj → Int → Except NetErr Nat := fun _ _ => .error .timedOut

/-- The `Request` object built for a well-formed mirror target. -/
def c3req : ReqObj := { url := "http://mirror.example/", data := [7], headers := [], method := "POST" }

/-- A JSON POST request whose URL is the spec's substring example. -/
def c4flow : Request :=
  { method := "POST", pretty_url := "http://api.example.com/v1/x",
    headers := [("Content-Type", "application/json")], raw_content := some [65] }

/-- Options for the URL-match examples: substring `api.example.com`. -/
def c4optsA : Options := { defaultOptions with mirror_match := "api.example.com" }

/-- Options for the URL-match examples: substring `other.com`. -/
def c4optsB : Options := { defaultOptions with mirror_match := "other.com" }

/-- A matcher whose `search` always reports a hit. -/
def matchAlways : Matcher := fun _ => .ok true

/-- A matcher whose `search` raises at run time. -/
def matchRaises : Matcher := fun _ => .error ()

/-- Eligible options pointing at a configured mirror base. -/
def c5opts : Options := { defaultOptions with mirror_base := "http://m.example" }

/-- Options whose base URL is blank (whitespace-only). -/
def c5optsBlank : Options := { defaultOptions with mirror_base := "   " }

/-- A JSON POST request with an empty body. -/
def c5flowEmpty : Request :=
  { method := "POST", pretty_url := "http://api.example.com/v1/x",
    headers := [("Content-Type", "application/json")], raw_content := some [] }

/-- A fully eligible JSON POST request with a nonempty body. -/
def c5flowOk : Request :=
  { method := "POST", pretty_url := "http://api.example.com/v1/x",
    headers := [("Content-Type", "application/json")], raw_content := some [42] }

/-- Options used by the method-filter witness: only `POST` allowed. -/
def c6optsPost : Options := { defaultOptions with mirror_methods := "POST" }

/-- Options whose method list is only commas and whitespace. -/
def c6optsBlank : Options := { defaultOptions with mirror_methods := " ,  , " }

/-- A GET request (no body needed for the filter theorems). -/
def c6flowGet : Request :=
  { method := "GET", pretty_url := "http://api.example.com/v1/x",
    headers := [("Content-Type", "application/json")], raw_content := none }

/-- A request with no Content-Type header at all. -/
def c7flowNone : Request :=
  { method := "POST", pretty_url := "http://api.example.com/v1/x",
    headers := [("Accept", "application/json")], raw_content := some [1] }

/-- A request whose Content-Type is `Application/JSON` (mixed case). -/
def c7flowJson : Request :=
  { method := "POST", pretty_url := "http://api.example.com/v1/x",
    headers := [("Content-Type", "Application/JSON; charset=utf-8")], raw_content := some [1] }

/-- Mirroring-enabled options that accept any content type. -/
def c8opts : Options := { defaultOptions with mirror_base := "http://m.example", mirror_json_only := false }

/-- A qualifying request with body bytes `[123]`. -/
def c8flow : Request :=
  { method := "POST", pretty_url := "http://api.example.com/v1/x",
    headers := [("Content-Type", "application/json")], raw_content := some [123] }

/-- The dispatch call captured from `c8flow` under `c8opts`. -/
def c8call : DispatchCall :=
  { target := "http://m.example/", body := [123],
    headers := [("Content-Type", "application/json"), ("X-Mirror-Correlation-Id", "u-8")], timeout := 5 }

/-- The `Request` object `_post_copy` builds from `c8call`. -/
def c8req : ReqObj :=
  { url := "http://m.example/", data := [123],
    headers := [("Content-Type", "application/json"), ("X-Mirror-Correlation-Id", "u-8")], method := "POST" }

/-- A request carrying a PRESENT but empty-valued Content-Type header. -/
def c9flow : Request :=
  { method := "POST", pretty_url := "http://api.example.com/v1/x",
    headers := [("Content-Type", "")], raw_content := some [1, 2] }

/-- Options mirroring everything to a configured base. -/
def c9opts : Options := { defaultOptions with mirror_base := "http://m.example", mirror_json_only := false }

/-- A qualifying JSON request for the header-set witness. -/
def c9wflow : Request :=
  { method := "POST", pretty_url := "http://api.example.com/v1/x",
    headers := [("Content-Type", "application/json")], raw_content := some [3] }

/-- Options for the header-set witness (all defaults, base configured). -/
def c9wopts : Options := { defaultOptions with mirror_base := "http://m.example" }

/-- The dispatch call captured from `c9wflow` under `c9wopts`. -/
def c9wcall : DispatchCall :=
  { target := "http://m.example/", body := [3],
    headers := [("Content-Type", "application/json"), ("X-Mirror-Correlation-Id", "u-9w")], timeout := 5 }

/-- Options whose correlation header name collides with `Content-Type`. -/
def c10opts : Options :=
  { defaultOptions with mirror_base := "http://m.example", mirror_header_name := "Content-Type" }

/-- A qualifying JSON request for the collision theorem. -/
def c10flow : Request :=
  { method := "POST", pretty_url := "http://api.example.com/v1/x",
    headers := [("Content-Type", "application/json")], raw_content := some [9] }

/-- The dispatch call captured from `c10flow` under `c10opts`: the UUID
has overwritten the copied Content-Type. -/
def c10call : DispatchCall :=
  { target := "http://m.example/", body := [9],
    headers := [("Content-Type", "u-10")], timeout := 5 }

end SimpleMirror

namespace SimpleMirror

/-! ## Helper lemmas -/

theorem pyIsEmpty_iff (s : String) : pyIsEmpty s = true ↔ s = "" := by
  constructor
  · intro h
    apply String.ext
    unfold pyIsEmpty at h
    cases hs : s.data with
    | nil => rfl
    | cons c t => rw [hs] at h; simp [List.isEmpty] at h
  · intro h; subst h; rfl

theorem should_mirror_filters_pass (st : MirrorState) (opts : Options) (r : Request)
    (hm : methodFilterOk opts r = true) (hc : ctypeFilterOk opts r = true) :
    should_mirror st opts r = urlMatchOk st opts r := by
  unfold should_mirror
  rw [hm, hc]
  rfl

theorem request_inner_flow_eq (ujoin : String → String → String) (uuid : String)
    (net : ReqObj → Int → Except NetErr Nat) (st : MirrorState) (opts : Options)
    (flow : Request) (hr : HookResult)
    (h : request_inner ujoin uuid net st opts flow = .ok hr) : hr.flow = flow := by
  unfold request_inner at h
  split at h
  · injection h with h; subst h; rfl
  · split at h
    · injection h with h; subst h; rfl
    · split at h
      · injection h with h; subst h; rfl
      · exact Except.noConfusion h

theorem capture_some_inv (ujoin : String → String → String) (uuid : String)
    (st : MirrorState) (opts : Options) (flow : Request) (c : DispatchCall)
    (h : capture ujoin uuid st opts flow = some c) :
    should_mirror st opts flow = true ∧
    pyIsEmpty (pyStrip opts.mirror_base) = false ∧
    (flow.raw_content.getD []).isEmpty = false ∧
    c = { target := ujoin (pyRstripSlashes (pyStrip opts.mirror_base) ++ "/")
            (pyLstripSlashes (if pyIsEmpty opts.mirror_path then "/" else opts.mirror_path)),
          body := flow.raw_content.getD [],
          headers :=
            (let ctype := (headersGet flow.headers "content-type").getD ""
             let hs1 : List (String × String) :=
               if pyIsEmpty ctype then [] else dictSet [] "Content-Type" ctype
             if opts.mirror_add_header then dictSet hs1 opts.mirror_header_name uuid else hs1),
          timeout := max 1 opts.mirror_timeout_secs } := by
  unfold capture at h
  cases hsm : should_mirror st opts flow with
  | false => simp [hsm] at h
  | true =>
    cases hbase : pyIsEmpty (pyStrip opts.mirror_base) with
    | true => simp [hsm, hbase] at h
    | false =>
      cases hbody : (flow.raw_content.getD []).isEmpty with
      | true => simp [hsm, hbase, hbody] at h
      | false =>
        simp only [hsm, hbase, hbody, Bool.not_true, Bool.false_eq_true, if_false,
          Option.some.injEq] at h
        exact ⟨rfl, rfl, rfl, h.symm⟩

end SimpleMirror

namespace SimpleMirror

/-! ## Claim theorems -/

/-- C2: for every configuration, addon state, oracle behaviour and
request, the per-request hook returns normally to the host — any
exception arising during eligibility evaluation, capture or dispatch is
caught at the hook's `try`/`except` boundary — and the request
descriptor (method, URL, headers, body) it hands back is exactly the one
it received. -/
theorem C2_hook_never_raises_never_mutates (ujoin : String → String → String)
    (uuid : String) (net : ReqObj → Int → Except NetErr Nat)
    (st : MirrorState) (opts : Options) (flow : Request) :
    ∃ hr : HookResult, request ujoin uuid net st opts flow = .ok hr ∧ hr.flow = flow := by
  unfold request
  cases h : request_inner ujoin uuid net st opts flow with
  | ok r => exact ⟨r, rfl, request_inner_flow_eq ujoin uuid net st opts flow r h⟩
  | error e => exact ⟨⟨flow, [], []⟩, rfl, rfl⟩

/-- C5: capture yields no snapshot — and the hook dispatches nothing —
when the configured base URL is blank (empty or whitespace-only) or when
the body is empty or absent, even for a request that passes every
eligibility filter; when the request is eligible, the base non-blank and
the body nonempty, a snapshot is produced. -/
theorem C5_capture_skips_blank_base_and_empty_body
    (ujoin : String → String → String) (uuid : String)
    (net : ReqObj → Int → Except NetErr Nat)
    (st1 : MirrorState) (opts1 : Options) (flow1 : Request)
    (h1e : should_mirror st1 opts1 flow1 = true)
    (h1b : pyIsEmpty (pyStrip opts1.mirror_base) = true)
    (st2 : MirrorState) (opts2 : Options) (flow2 : Request)
    (h2e : should_mirror st2 opts2 flow2 = true)
    (h2b : flow2.raw_content.getD [] = [])
    (st3 : MirrorState) (opts3 : Options) (flow3 : Request)
    (h3e : should_mirror st3 opts3 flow3 = true)
    (h3b : pyIsEmpty (pyStrip opts3.mirror_base) = false)
    (h3c : flow3.raw_content.getD [] ≠ []) :
    capture ujoin uuid st1 opts1 flow1 = none ∧
    request ujoin uuid net st1 opts1 flow1 = .ok ⟨flow1, [], []⟩ ∧
    capture ujoin uuid st2 opts2 flow2 = none ∧
    request ujoin uuid net st2 opts2 flow2 = .ok ⟨flow2, [], []⟩ ∧
    (∃ c, capture ujoin uuid st3 opts3 flow3 = some c) := by
  have cap1 : capture ujoin uuid st1 opts1 flow1 = none := by
    unfold capture; simp [h1e, h1b]
  have cap2 : capture ujoin uuid st2 opts2 flow2 = none := by
    unfold capture; simp [h2e, h2b]
  refine ⟨cap1, ?_, cap2, ?_, ?_⟩
  · unfold request request_inner; rw [cap1]
  · unfold request request_inner; rw [cap2]
  · cases hb : flow3.raw_content.getD [] with
    | nil => exact absurd hb h3c
    | cons a t =>
      unfold capture
      simp [h3e, h3b, hb]

/-- C5 witness: a blank base (`"   "`) and an empty body each suppress
the snapshot for an otherwise eligible request, and the eligible
non-blank nonempty case produces one. -/
theorem C5_capture_skips_blank_base_and_empty_body_witness :
    capture ujoinConcat "u-5" ⟨none⟩ c5optsBlank c5flowOk = none ∧
    request ujoinConcat "u-5" c3net ⟨none⟩ c5optsBlank c5flowOk = .ok ⟨c5flowOk, [], []⟩ ∧
    capture ujoinConcat "u-5" ⟨none⟩ c5opts c5flowEmpty = none ∧
    request ujoinConcat "u-5" c3net ⟨none⟩ c5opts c5flowEmpty = .ok ⟨c5flowEmpty, [], []⟩ ∧
    (∃ c, capture ujoinConcat "u-5" ⟨none⟩ c5opts c5flowOk = some c) :=
  C5_capture_skips_blank_base_and_empty_body ujoinConcat "u-5" c3net
    ⟨none⟩ c5optsBlank c5flowOk (by decide) (by decide)
    ⟨none⟩ c5opts c5flowEmpty (by decide) (by decide)
    ⟨none⟩ c5opts c5flowOk (by decide) (by decide) (by decide)

end SimpleMirror

namespace SimpleMirror

theorem pyIsEmpty_eq_false (s : String) (h : s ≠ "") : pyIsEmpty s = false := by
  cases he : pyIsEmpty s with
  | true => exact absurd ((pyIsEmpty_iff s).mp he) h
  | false => rfl

/-- C6: `shouldMirror` returns false whenever the parsed method
allow-list is non-empty and the request's method — compared
case-insensitively, both sides uppercased — is not a member; a
`mirror_methods` string of only commas and whitespace parses to the
empty allow-list, and an empty allow-list makes the method filter a
no-op that rejects nothing. -/
theorem C6_method_allow_list
    (st1 : MirrorState) (opts1 : Options) (r1 : Request)
    (h1n : parseMethods opts1.mirror_methods ≠ [])
    (h1m : (parseMethods opts1.mirror_methods).contains (pyUpper r1.method) = false)
    (opts2 : Options) (r2 : Request)
    (h2 : parseMethods opts2.mirror_methods = []) :
    should_mirror st1 opts1 r1 = false ∧
    methodFilterOk opts2 r2 = true ∧
    parseMethods " ,  , " = [] := by
  refine ⟨?_, ?_, by decide⟩
  · have hmf : methodFilterOk opts1 r1 = false := by
      unfold methodFilterOk
      cases hp : parseMethods opts1.mirror_methods with
      | nil => exact absurd hp h1n
      | cons a tl =>
        rw [hp] at h1m
        simp only [List.isEmpty_cons, Bool.false_or]
        exact h1m
    unfold should_mirror
    rw [hmf]
    rfl
  · unfold methodFilterOk
    rw [h2]
    rfl

/-- C6 witness: a GET request against the allow-list `POST` is rejected,
and the allow-list parsed from `" ,  , "` is empty, making the filter a
no-op. -/
theorem C6_method_allow_list_witness :
    should_mirror ⟨none⟩ c6optsPost c6flowGet = false ∧
    methodFilterOk c6optsBlank c6flowGet = true ∧
    parseMethods " ,  , " = [] :=
  C6_method_allow_list ⟨none⟩ c6optsPost c6flowGet (by decide) (by decide)
    c6optsBlank c6flowGet (by decide)

/-- C7: with `jsonOnly` enabled, a request carrying no Content-Type
header is never mirrored, and for a request carrying one the
content-type filter passes exactly when the value contains `"json"`
case-insensitively (the source lowercases the value before testing the
lowercase needle). -/
theorem C7_json_only_filter
    (st1 : MirrorState) (opts1 : Options) (r1 : Request)
    (h1j : opts1.mirror_json_only = true)
    (h1a : headersGet r1.headers "content-type" = none)
    (opts2 : Options) (r2 : Request) (v : String)
    (h2j : opts2.mirror_json_only = true)
    (h2v : headersGet r2.headers "content-type" = some v) :
    should_mirror st1 opts1 r1 = false ∧
    ctypeFilterOk opts2 r2 = pyContains (pyLower v) "json" := by
  constructor
  · have hct : ctypeFilterOk opts1 r1 = false := by
      unfold ctypeFilterOk
      rw [h1j, h1a]
      decide
    cases hm2 : methodFilterOk opts1 r1 with
    | false => unfold should_mirror; rw [hm2]; rfl
    | true => unfold should_mirror; rw [hm2, hct]; rfl
  · unfold ctypeFilterOk
    rw [h2j, h2v]
    simp

/-- C7 witness: a request with only an `Accept` header is rejected under
`jsonOnly`, and a `Application/JSON; charset=utf-8` value passes the
filter by case-insensitive containment. -/
theorem C7_json_only_filter_witness :
    should_mirror ⟨none⟩ defaultOptions c7flowNone = false ∧
    ctypeFilterOk defaultOptions c7flowJson =
      pyContains (pyLower "Application/JSON; charset=utf-8") "json" :=
  C7_json_only_filter ⟨none⟩ defaultOptions c7flowNone rfl (by decide)
    defaultOptions c7flowJson "Application/JSON; charset=utf-8" rfl (by decide)

end SimpleMirror

namespace SimpleMirror

/-- C4: the URL-match step, for requests that pass the method and
content-type filters: an empty match spec accepts; a compiled regex
decides acceptance by its `search` result on the full URL (`.ok b` gives
`b`, a runtime matching error gives reject); a literal substring accepts
exactly when the URL contains it verbatim and case-sensitively; and the
spec's two concrete substring examples hold. -/
theorem C4_url_match_step
    (st1 : MirrorState) (opts1 : Options) (r1 : Request)
    (h1m : methodFilterOk opts1 r1 = true) (h1c : ctypeFilterOk opts1 r1 = true)
    (h1e : opts1.mirror_match = "")
    (st2 : MirrorState) (opts2 : Options) (r2 : Request) (rgx2 : Matcher) (b : Bool)
    (h2m : methodFilterOk opts2 r2 = true) (h2c : ctypeFilterOk opts2 r2 = true)
    (h2n : opts2.mirror_match ≠ "") (h2r : st2.regex = some rgx2)
    (h2s : rgx2 r2.pretty_url = .ok b)
    (st3 : MirrorState) (opts3 : Options) (r3 : Request) (rgx3 : Matcher)
    (h3m : methodFilterOk opts3 r3 = true) (h3c : ctypeFilterOk opts3 r3 = true)
    (h3n : opts3.mirror_match ≠ "") (h3r : st3.regex = some rgx3)
    (h3s : rgx3 r3.pretty_url = .error ())
    (st4 : MirrorState) (opts4 : Options) (r4 : Request)
    (h4m : methodFilterOk opts4 r4 = true) (h4c : ctypeFilterOk opts4 r4 = true)
    (h4n : opts4.mirror_match ≠ "") (h4r : st4.regex = none) :
    should_mirror st1 opts1 r1 = true ∧
    should_mirror st2 opts2 r2 = b ∧
    should_mirror st3 opts3 r3 = false ∧
    should_mirror st4 opts4 r4 = pyContains r4.pretty_url opts4.mirror_match ∧
    should_mirror ⟨none⟩ c4optsA c4flow = true ∧
    should_mirror ⟨none⟩ c4optsB c4flow = false := by
  refine ⟨?_, ?_, ?_, ?_, by decide, by decide⟩
  · rw [should_mirror_filters_pass st1 opts1 r1 h1m h1c]
    simp [urlMatchOk, h1e, pyIsEmpty_iff]
  · rw [should_mirror_filters_pass st2 opts2 r2 h2m h2c]
    simp [urlMatchOk, pyIsEmpty_eq_false _ h2n, h2r, h2s]
  · rw [should_mirror_filters_pass st3 opts3 r3 h3m h3c]
    simp [urlMatchOk, pyIsEmpty_eq_false _ h3n, h3r, h3s]
  · rw [should_mirror_filters_pass st4 opts4 r4 h4m h4c]
    simp [urlMatchOk, pyIsEmpty_eq_false _ h4n, h4r]

/-- C4 witness: the empty spec accepts; an always-hitting matcher
accepts; a matcher that raises at run time rejects; the substring case
reduces to literal containment; and the two concrete examples hold. -/
theorem C4_url_match_step_witness :
    should_mirror ⟨none⟩ defaultOptions c4flow = true ∧
    should_mirror ⟨some matchAlways⟩ c4optsA c4flow = true ∧
    should_mirror ⟨some matchRaises⟩ c4optsA c4flow = false ∧
    should_mirror ⟨none⟩ c4optsA c4flow = pyContains c4flow.pretty_url c4optsA.mirror_match ∧
    should_mirror ⟨none⟩ c4optsA c4flow = true ∧
    should_mirror ⟨none⟩ c4optsB c4flow = false :=
  C4_url_match_step
    ⟨none⟩ defaultOptions c4flow (by decide) (by decide) rfl
    ⟨some matchAlways⟩ c4optsA c4flow matchAlways true (by decide) (by decide) (by decide) rfl rfl
    ⟨some matchRaises⟩ c4optsA c4flow matchRaises (by decide) (by decide) (by decide) rfl rfl
    ⟨none⟩ c4optsA c4flow (by decide) (by decide) (by decide) rfl

/-- C1 (amended): an invalid `regex:` pattern is caught — `configure`
completes normally and stores no compiled pattern — but the URL-match
step then falls back to LITERAL SUBSTRING matching of the entire
`mirror_match` string, `regex:` prefix included, not to match-all: a
request passing the other filters is mirrored exactly when its URL
contains that full string. -/
theorem C1_invalid_regex_fallback (compile : String → Except Unit Matcher)
    (opts : Options) (r : Request)
    (hpre : pyStartsWith opts.mirror_match "regex:" = true)
    (hbad : compile (pyDropChars opts.mirror_match 6) = .error ())
    (hm : methodFilterOk opts r = true) (hc : ctypeFilterOk opts r = true) :
    configure compile opts = ⟨none⟩ ∧
    should_mirror (configure compile opts) opts r =
      pyContains r.pretty_url opts.mirror_match := by
  have hne : opts.mirror_match ≠ "" := by
    intro he
    rw [he] at hpre
    exact absurd hpre (by decide)
  have hcfg : configure compile opts = ⟨none⟩ := by
    simp [configure, hpre, hbad]
  refine ⟨hcfg, ?_⟩
  rw [hcfg, should_mirror_filters_pass _ opts r hm hc]
  simp [urlMatchOk, pyIsEmpty_eq_false _ hne]

/-- C1 witness: with the corrupt pattern `regex:(`, configuration load
completes with no compiled pattern, and the URL step degrades to literal
containment of the string `regex:(`. -/
theorem C1_invalid_regex_fallback_witness :
    configure c1compileFail c1opts = ⟨none⟩ ∧
    should_mirror (configure c1compileFail c1opts) c1opts c1flow =
      pyContains c1flow.pretty_url c1opts.mirror_match :=
  C1_invalid_regex_fallback c1compileFail c1opts c1flow (by decide) rfl
    (by decide) (by decide)

/-- C1 counterexample: under `mirror_match = "regex:("` (an invalid
pattern), a request that passes the method and content-type filters is
NOT mirrored — its URL does not contain the literal string `regex:(` —
although the claim states the URL-match step accepts every URL. -/
theorem C1_invalid_regex_counterexample :
    methodFilterOk c1opts c1flow = true ∧ ctypeFilterOk c1opts c1flow = true ∧
    should_mirror (configure c1compileFail c1opts) c1opts c1flow = false := by decide

end SimpleMirror

namespace SimpleMirror

/-- C3 (amended): every failure raised by the HTTP client call itself —
connection refused, DNS failure, timeout, TLS error, or any HTTP status
— is caught inside `_post_copy`, which performs exactly one delivery
attempt (no retry) and returns normally with the logged outcome.  The
amendment: a malformed target URL raises `ValueError` from `Request`
construction, which sits OUTSIDE the `try` block and escapes
`_post_copy` (in synchronous mode the hook boundary catches it
instead). -/
theorem C3_dispatch_single_attempt_absorbs_urlopen_failures
    (net : ReqObj → Int → Except NetErr Nat) (target : String) (body : List Nat)
    (hs : List (String × String)) (t : Int) (req : ReqObj)
    (hreq : requestConstruct target body hs = .ok req) :
    post_copy net target body hs t = .ok [(req, net req t)] := by
  unfold post_copy
  rw [hreq]

/-- C3 witness: against a network where every delivery times out,
`_post_copy` on a well-formed target returns normally after exactly one
attempt, with the timeout recorded as the logged outcome. -/
theorem C3_dispatch_single_attempt_witness :
    post_copy c3wnet "http://mirror.example/" [7] [] 5 =
      .ok [(c3req, c3wnet c3req 5)] :=
  C3_dispatch_single_attempt_absorbs_urlopen_failures c3wnet
    "http://mirror.example/" [7] [] 5 c3req (by decide)

/-- C3 counterexample: dispatching to the malformed target `"not a url"`
raises a `ValueError` out of `_post_copy` (the `Request` construction is
outside its `try` block), contradicting "caught and logged within the
dispatch procedure itself and never raised out of it". -/
theorem C3_malformed_target_escapes_counterexample :
    post_copy c3net "not a url" [1] [] 5 = .error .valueError := by decide

/-- C8: the body of every captured dispatch call is exactly the original
request's raw body bytes (which are nonempty — empty bodies are never
captured), and the outbound request object `_post_copy` builds carries
those same bytes unchanged, always under method `POST`. -/
theorem C8_body_bytes_and_method
    (ujoin : String → String → String) (uuid : String) (st : MirrorState)
    (opts : Options) (flow : Request) (c : DispatchCall)
    (hcap : capture ujoin uuid st opts flow = some c)
    (net : ReqObj → Int → Except NetErr Nat) (t : Int) (req : ReqObj)
    (hreq : requestConstruct c.target c.body c.headers = .ok req) :
    flow.raw_content = some c.body ∧ c.body ≠ [] ∧
    post_copy net c.target c.body c.headers t = .ok [(req, net req t)] ∧
    req.data = c.body ∧ req.method = "POST" := by
  obtain ⟨-, -, hbody, hc⟩ := capture_some_inv ujoin uuid st opts flow c hcap
  have hcb : c.body = flow.raw_content.getD [] := by rw [hc]
  have hbne : c.body ≠ [] := by
    rw [hcb]
    intro he
    rw [he] at hbody
    simp at hbody
  have hrc : flow.raw_content = some c.body := by
    cases hr : flow.raw_content with
    | none =>
      rw [hr] at hbody
      simp at hbody
    | some b =>
      rw [hcb, hr]
      rfl
  have hpc : post_copy net c.target c.body c.headers t = .ok [(req, net req t)] := by
    unfold post_copy
    rw [hreq]
  have hreqf : req.data = c.body ∧ req.method = "POST" := by
    cases hu : hasUrlType (pyStrip c.target) with
    | true =>
      simp [requestConstruct, hu] at hreq
      rw [← hreq]
      exact ⟨rfl, rfl⟩
    | false => simp [requestConstruct, hu] at hreq
  exact ⟨hrc, hbne, hpc, hreqf.1, hreqf.2⟩

/-- C8 witness: the captured call for a request with body `[123]`
carries exactly those bytes, and the outbound `Request` object posts
them unchanged with method `POST`. -/
theorem C8_body_bytes_and_method_witness :
    c8flow.raw_content = some c8call.body ∧ c8call.body ≠ [] ∧
    post_copy c3wnet c8call.target c8call.body c8call.headers 5 =
      .ok [(c8req, c3wnet c8req 5)] ∧
    c8req.data = c8call.body ∧ c8req.method = "POST" :=
  C8_body_bytes_and_method ujoinConcat "u-8" ⟨none⟩ c8opts c8flow c8call (by decide)
    c3wnet 5 c8req (by decide)

end SimpleMirror

namespace SimpleMirror

/-- C9 (amended): the mirrored header set contains exactly: the
original's Content-Type value, copied verbatim iff that header is
present WITH A NON-EMPTY VALUE (the source tests the value's truthiness,
not the header's presence) and not overwritten by an enabled correlation
header of the same name; plus, iff `mirror_add_header` is enabled, the
configured correlation name bound to the externally supplied fresh
identifier, which does not depend on the request; no other original
header is forwarded. -/
theorem pyIsEmpty_empty_string : pyIsEmpty "" = true := rfl

theorem C9_forwarded_header_set
    (ujoin : String → String → String) (uuid : String) (st : MirrorState)
    (opts : Options) (flow : Request) (c : DispatchCall)
    (hcap : capture ujoin uuid st opts flow = some c) :
    c.headers =
      (let ct := (headersGet flow.headers "content-type").getD ""
       if opts.mirror_add_header then
         (if ct = "" then [(opts.mirror_header_name, uuid)]
          else if opts.mirror_header_name = "Content-Type" then [("Content-Type", uuid)]
          else [("Content-Type", ct), (opts.mirror_header_name, uuid)])
       else (if ct = "" then [] else [("Content-Type", ct)])) := by
  obtain ⟨-, -, -, hc⟩ := capture_some_inv ujoin uuid st opts flow c hcap
  rw [hc]
  by_cases hct : (headersGet flow.headers "content-type").getD "" = ""
  · have hpe : pyIsEmpty ((headersGet flow.headers "content-type").getD "") = true :=
      (pyIsEmpty_iff _).mpr hct
    cases hadd : opts.mirror_add_header with
    | true => simp [hpe, hct, hadd, dictSet, pyIsEmpty_empty_string]
    | false => simp [hpe, hct, hadd, pyIsEmpty_empty_string]
  · have hpe : pyIsEmpty ((headersGet flow.headers "content-type").getD "") = false :=
      pyIsEmpty_eq_false _ hct
    cases hadd : opts.mirror_add_header with
    | false => simp [hpe, hct, hadd, dictSet]
    | true =>
      by_cases hname : opts.mirror_header_name = "Content-Type"
      · simp [hpe, hct, hadd, hname, dictSet]
      · simp [hpe, hct, hadd, hname, Ne.symm hname, dictSet]

/-- C9 witness: for a request with `Content-Type: application/json` and
the default correlation settings, the mirrored headers are exactly the
copied Content-Type plus the correlation header with the fresh
identifier. -/
theorem C9_forwarded_header_set_witness :
    c9wcall.headers =
      (let ct := (headersGet c9wflow.headers "content-type").getD ""
       if c9wopts.mirror_add_header then
         (if ct = "" then [(c9wopts.mirror_header_name, "u-9w")]
          else if c9wopts.mirror_header_name = "Content-Type" then [("Content-Type", "u-9w")]
          else [("Content-Type", ct), (c9wopts.mirror_header_name, "u-9w")])
       else (if ct = "" then [] else [("Content-Type", ct)])) :=
  C9_forwarded_header_set ujoinConcat "u-9w" ⟨none⟩ c9wopts c9wflow c9wcall (by decide)

/-- C9 counterexample: a request whose original headers contain a
PRESENT but empty-valued Content-Type header is mirrored WITHOUT any
Content-Type header (the source tests `if ctype:`, so an empty value is
dropped), contradicting "copied verbatim iff that header is present in
the original". -/
theorem C9_present_empty_ctype_not_copied_counterexample :
    headersGet c9flow.headers "content-type" = some "" ∧
    (capture ujoinConcat "u-9" ⟨none⟩ c9opts c9flow).map DispatchCall.headers =
      some [("X-Mirror-Correlation-Id", "u-9")] := by decide

/-- C10: when the correlation header is enabled under the name
`Content-Type` and the original request carries a non-empty Content-Type
value, the freshly generated identifier OVERWRITES the copied value —
the mirrored headers are exactly `Content-Type: <uuid>` and the original
content type is not forwarded; no validation rejects this
configuration (the capture succeeds, as the witness shows). -/
theorem C10_correlation_name_collision_overwrites
    (ujoin : String → String → String) (uuid : String) (st : MirrorState)
    (opts : Options) (flow : Request) (c : DispatchCall)
    (hadd : opts.mirror_add_header = true)
    (hname : opts.mirror_header_name = "Content-Type")
    (hct : (headersGet flow.headers "content-type").getD "" ≠ "")
    (hcap : capture ujoin uuid st opts flow = some c) :
    c.headers = [("Content-Type", uuid)] := by
  obtain ⟨-, -, -, hc⟩ := capture_some_inv ujoin uuid st opts flow c hcap
  rw [hc]
  simp [pyIsEmpty_eq_false _ hct, hadd, hname, dictSet]

/-- C10 witness: with `mirror_header_name = "Content-Type"` and an
original `Content-Type: application/json`, the captured call's headers
are exactly the UUID under `Content-Type`. -/
theorem C10_correlation_name_collision_overwrites_witness :
    c10call.headers = [("Content-Type", "u-10")] :=
  C10_correlation_name_collision_overwrites ujoinConcat "u-10" ⟨none⟩ c10opts c10flow
    c10call rfl rfl (by decide) (by decide)

end SimpleMirror
